import Mathlib

/-!
Verification of the DTLS/SRTP secure-channel core (`internal/dtls/dtls.c`,
`internal/dtls/queue.c`, headers `dtls.h`, `queue.h`).

The orchestration code is embedded shallowly: the session structure, role and
connection-kind enums, the pending-output flush, the handshake driver and the
packet-ingest path are translated function-by-function from the C source.
The underlying OpenSSL engine (`SSL_do_handshake`, `SSL_read`,
`SSL_get_error`, `SSL_export_keying_material`, the PEM parsers and the
`X509_digest` hash) is an external collaborator; it is modelled as an
abstract parameter (the `Engine` structure and oracle functions), and the
theorems hold for every engine behaviour.

Byte buffers are `List Nat`; the memory BIOs of a session are the `rbio` and
`wbio` fields of `SslState`; the outbound traffic handed to
`go_handle_sendto` is accumulated in an output list, standing for the queue
the transport collaborator drains.
-/

/-- Model of `enum dtls_con_state` from dtls.h. -/
inductive dtls_con_state where
  | ACT
  | PASS
  | ACTPASS
  | HOLDCONN
deriving DecidableEq, Repr

/-- Model of `enum dtls_con_type` from dtls.h. -/
inductive dtls_con_type where
  | NEW
  | EXISTING
deriving DecidableEq, Repr

/-- Constant `MASTER_KEY_LEN` from dtls.h. -/
def MASTER_KEY_LEN : Nat := 16

/-- Constant `MASTER_SALT_LEN` from dtls.h. -/
def MASTER_SALT_LEN : Nat := 14

/-- Size of `srtp_key_material.material`: `(MASTER_KEY_LEN + MASTER_SALT_LEN) * 2`. -/
def KEY_MATERIAL_LEN : Nat := (MASTER_KEY_LEN + MASTER_SALT_LEN) * 2

/-- The observable state of one underlying `SSL*` object: its two memory
BIOs, whether `SSL_is_init_finished` holds, whether it is in accept state
(`SSL_set_accept_state` vs `SSL_set_connect_state`), and an opaque internal
engine state (`inner`) that abstract engine transitions may use. -/
structure SslState where
  rbio : List Nat
  wbio : List Nat
  initFinished : Bool
  accepting : Bool
  inner : Nat
deriving DecidableEq, Repr

/-- Abstract interface of the underlying DTLS engine: `SSL_do_handshake`,
`SSL_read` (returning the new engine state and the C return value), the
`SSL_get_error … == SSL_ERROR_SSL` test, and
`SSL_export_keying_material` (on success it fills the caller's fixed
`(16+14)*2`-byte buffer, hence the length-constrained subtype). -/
structure Engine where
  doHandshake : SslState → SslState
  sslRead : SslState → Nat → SslState × Int
  isFatal : SslState → Int → Bool
  exportKM : SslState → Option { l : List Nat // l.length = KEY_MATERIAL_LEN }

/-- Model of `struct dtls_sess` from dtls.h (the mutex is concurrency plumbing with
no state visible to these claims). `ssl = none` models a released handle. -/
structure dtls_sess where
  ssl : Option SslState
  state : dtls_con_state
  type : dtls_con_type
deriving DecidableEq

/-- Outbound buffers handed to `go_handle_sendto`, in emission order. -/
abbrev SendLog := List (List Nat)

/-- The body of `dtls_sess_send_pending` once the handle is known live:
`BIO_ctrl_pending` on the write BIO, and if positive a single `BIO_read`
that drains it whole into one fresh buffer which is emitted; returns the
byte count read (0 when nothing was pending). -/
def flush_wbio (ssl : SslState) (out : SendLog) : Int × SslState × SendLog :=
  if 0 < ssl.wbio.length then
    ((ssl.wbio.length : Int), { ssl with wbio := [] }, out ++ [ssl.wbio])
  else
    (0, ssl, out)

/-- Translation of `dtls_sess_send_pending`, dtls.c lines 176–193: `-2` when the
session has no live handle, otherwise drain the write BIO in one pass. -/
def dtls_sess_send_pending (s : dtls_sess) (out : SendLog) :
    Int × dtls_sess × SendLog :=
  match s.ssl with
  | none => (-2, s, out)
  | some ssl =>
      let f := flush_wbio ssl out
      (f.1, { s with ssl := some f.2.1 }, f.2.2)

/-- Translation of `dtls_do_handshake`, dtls.c lines 232–246: fails with `-2` when the
handle is dead or the role is neither `ACT` nor `ACTPASS`; otherwise
resolves `ACTPASS` to `ACT`, runs `SSL_do_handshake`, and flushes pending
output (the handle is live here, so `dtls_sess_send_pending` reduces to
`flush_wbio`). -/
def dtls_do_handshake (E : Engine) (s : dtls_sess) (out : SendLog) :
    Int × dtls_sess × SendLog :=
  match s.ssl with
  | none => (-2, s, out)
  | some ssl0 =>
      if s.state ≠ dtls_con_state.ACT ∧ s.state ≠ dtls_con_state.ACTPASS then
        (-2, s, out)
      else
        let st1 := if s.state = dtls_con_state.ACTPASS then dtls_con_state.ACT
                   else s.state
        let ssl1 := E.doHandshake ssl0
        let f := flush_wbio ssl1 out
        (f.1, { s with state := st1, ssl := some f.2.1 }, f.2.2)

/-- Translation of `dtls_sess_put_packet`, dtls.c lines 195–230: `-1` when the handle
is dead; resolve `ACTPASS` to `PASS` (entering accept state); flush pending
output (result discarded); `BIO_write` the packet into the read BIO;
`SSL_read`; on a fatal engine error (`ret < 0` and `SSL_ERROR_SSL`) return
`ret` at once; otherwise flush again, flip the connection type to
`EXISTING` when `SSL_is_init_finished`, and return the second flush's
count. -/
def dtls_sess_put_packet (E : Engine) (s : dtls_sess) (out : SendLog)
    (buf : List Nat) : Int × dtls_sess × SendLog :=
  match s.ssl with
  | none => (-1, s, out)
  | some ssl0 =>
      let st1 := if s.state = dtls_con_state.ACTPASS then dtls_con_state.PASS
                 else s.state
      let ssl1 := if s.state = dtls_con_state.ACTPASS
                  then { ssl0 with accepting := true } else ssl0
      let f1 := flush_wbio ssl1 out
      let ssl2 := { f1.2.1 with rbio := f1.2.1.rbio ++ buf }
      let rd := E.sslRead ssl2 buf.length
      if rd.2 < 0 ∧ E.isFatal rd.1 rd.2 then
        (rd.2, { s with state := st1, ssl := some rd.1 }, f1.2.2)
      else
        let f2 := flush_wbio rd.1 f1.2.2
        let ty := if f2.2.1.initFinished then dtls_con_type.EXISTING else s.type
        (f2.1, { s with state := st1, type := ty, ssl := some f2.2.1 }, f2.2.2)

/-- The two session-mutating operations a caller can apply. -/
inductive SessOp where
  | drive
  | ingest (buf : List Nat)

/-- Apply one operation (discarding the returned byte count / sentinel). -/
def applyOp (E : Engine) (op : SessOp) (w : dtls_sess × SendLog) :
    dtls_sess × SendLog :=
  match op with
  | SessOp.drive => (dtls_do_handshake E w.1 w.2).2
  | SessOp.ingest buf => (dtls_sess_put_packet E w.1 w.2 buf).2

/-- Run a sequence of operations, each with its own engine behaviour. -/
def runOps (ops : List (Engine × SessOp)) (w : dtls_sess × SendLog) :
    dtls_sess × SendLog :=
  ops.foldl (fun w p => applyOp p.1 p.2 w) w

/-- The one-directional order on roles: a role only ever stays put, or moves
`ACTPASS → ACT` / `ACTPASS → PASS`. -/
def roleLe (a b : dtls_con_state) : Prop :=
  a = b ∨ (a = dtls_con_state.ACTPASS ∧
           (b = dtls_con_state.ACT ∨ b = dtls_con_state.PASS))

instance : DecidablePred fun p : dtls_con_state × dtls_con_state => roleLe p.1 p.2 := by
  intro p
  unfold roleLe
  infer_instance

instance roleLeDecidable (a b : dtls_con_state) : Decidable (roleLe a b) := by
  unfold roleLe
  infer_instance

/-- The one-directional order on connection kinds: `NEW → EXISTING` only. -/
def typeLe (a b : dtls_con_type) : Prop :=
  a = b ∨ (a = dtls_con_type.NEW ∧ b = dtls_con_type.EXISTING)

instance typeLeDecidable (a b : dtls_con_type) : Decidable (typeLe a b) := by
  unfold typeLe
  infer_instance

/-- Model of `struct srtp_key_material` from dtls.h: the fixed
`(MASTER_KEY_LEN + MASTER_SALT_LEN) * 2`-byte buffer plus the session role
recorded at export time. -/
structure srtp_key_material where
  material : List Nat
  ispassive : dtls_con_state
deriving DecidableEq

/-- Translation of `srtp_get_key_material`, dtls.c lines 248–264: null unless
`SSL_is_init_finished`; otherwise export keying material with the fixed
label into the fixed-size buffer (null if the engine's exporter fails) and
tag it with the session's current role. The C function is only ever called
with a live handle; a dead handle is mapped to null here. -/
def srtp_get_key_material (E : Engine) (s : dtls_sess) :
    Option srtp_key_material :=
  match s.ssl with
  | none => none
  | some ssl =>
      if ¬ ssl.initFinished then none
      else
        match E.exportKM ssl with
        | none => none
        | some m => some { material := m.1, ispassive := s.state }

/-- Model of `struct srtp_key_ptrs` from dtls.h. The C fields are pointers into the
`material` buffer; here each field holds the pointed-to range (its length
fixed by how the consumers read it: `MASTER_KEY_LEN` for keys,
`MASTER_SALT_LEN` for salts). -/
structure srtp_key_ptrs where
  localkey : List Nat
  remotekey : List Nat
  localsalt : List Nat
  remotesalt : List Nat
deriving DecidableEq

/-- Translation of `srtp_key_material_extract`, dtls.c lines 52–65: role `ACT` reads
local key, peer key, local salt, peer salt at offsets 0, 16, 32, 46;
every other role reads peer key, local key, peer salt, local salt at the
same offsets. -/
def srtp_key_material_extract (km : srtp_key_material) : srtp_key_ptrs :=
  if km.ispassive = dtls_con_state.ACT then
    { localkey := km.material.take MASTER_KEY_LEN
      remotekey := (km.material.drop MASTER_KEY_LEN).take MASTER_KEY_LEN
      localsalt := (km.material.drop (MASTER_KEY_LEN + MASTER_KEY_LEN)).take
        MASTER_SALT_LEN
      remotesalt := (km.material.drop
        (MASTER_KEY_LEN + MASTER_KEY_LEN + MASTER_SALT_LEN)).take
        MASTER_SALT_LEN }
  else
    { remotekey := km.material.take MASTER_KEY_LEN
      localkey := (km.material.drop MASTER_KEY_LEN).take MASTER_KEY_LEN
      remotesalt := (km.material.drop (MASTER_KEY_LEN + MASTER_KEY_LEN)).take
        MASTER_SALT_LEN
      localsalt := (km.material.drop
        (MASTER_KEY_LEN + MASTER_KEY_LEN + MASTER_SALT_LEN)).take
        MASTER_SALT_LEN }

/-- Constant `CACHE_SIZE` from queue.h. -/
def CACHE_SIZE : Nat := 256

/-- Model of `struct queue_st` from queue.h: the record chain is the list of queued
data values front-to-back; the free-list cache keeps only its size (the C
invariant `cache != NULL ↔ cache_size > 0` lets the chain itself be
dropped). Data values are opaque `void*`, modelled as `Nat`. -/
structure queue_st where
  first : List Nat
  length : Nat
  cache_size : Nat
deriving DecidableEq, Repr

/-- Translation of `queue_init`, queue.c lines 35–53 (the `memset` zero state). -/
def queue_init : queue_st := { first := [], length := 0, cache_size := 0 }

/-- Translation of `new_record`, queue.c lines 3–15: pop the free list if possible,
else allocate (allocation modelled as always succeeding). -/
def new_record (q : queue_st) : queue_st :=
  if 0 < q.cache_size then { q with cache_size := q.cache_size - 1 } else q

/-- Translation of `del_record`, queue.c lines 17–33: return the record shell to the
free list unless the cache is above `length/8 + CACHE_SIZE`, then trim one
entry if the cache exceeds `length/4 + CACHE_SIZE*10`. -/
def del_record (q : queue_st) : queue_st :=
  let q1 := if q.cache_size > q.length / 8 + CACHE_SIZE then q
            else { q with cache_size := q.cache_size + 1 }
  if q1.cache_size > q1.length / 4 + CACHE_SIZE * 10 then
    { q1 with cache_size := q1.cache_size - 1 }
  else q1

/-- Translation of `queue_put`, queue.c lines 55–82: take a record (cache or fresh),
fill it, append at the tail, broadcast if the queue was empty, return 0. -/
def queue_put (q : queue_st) (data : Nat) : Int × queue_st :=
  let q1 := new_record q
  (0, { q1 with first := q1.first ++ [data], length := q1.length + 1 })

/-- Translation of `queue_get`, queue.c lines 84–133, from the point where the wait
loop has ended: with an empty chain the wait timed out and NULL (the
timeout sentinel, modelled `none`) is returned; with a non-empty chain the
front record is unlinked, `length` is decremented (and re-zeroed when the
chain empties), a `message_st` holding the front's data is heap-allocated —
and then the function executes `return 0;`, so the caller receives NULL in
this case as well. The first component is exactly the C return value. -/
def queue_get (q : queue_st) : Option Nat × queue_st :=
  match q.first with
  | [] => (none, q)
  | _ :: rest =>
      let len := q.length - 1
      let q1 : queue_st :=
        { q with first := rest, length := if rest.isEmpty then 0 else len }
      (none, del_record q1)

/-- The data value of the `message_st` that `queue_get` builds (lines
126–127) and then fails to return. -/
def queue_get_msg (q : queue_st) : Option Nat := q.first.head?

/-- Digit characters of `%hhx` (lowercase, as printf produces). -/
def hexDigitChar (n : Nat) : Char :=
  match n with
  | 0 => '0' | 1 => '1' | 2 => '2' | 3 => '3' | 4 => '4'
  | 5 => '5' | 6 => '6' | 7 => '7' | 8 => '8' | 9 => '9'
  | 10 => 'a' | 11 => 'b' | 12 => 'c' | 13 => 'd' | 14 => 'e'
  | _ => 'f'

/-- One byte rendered by `%hhx`: minimal width (no zero padding),
lowercase. -/
def hexByte (b : Nat) : String :=
  let v := b % 256
  if v < 16 then String.mk [hexDigitChar v]
  else String.mk [hexDigitChar (v / 16), hexDigitChar (v % 16)]

/-- Translation of `fprinthex`, dtls.c lines 272–282, as the string it writes: the
given label, then `":        "` and the first byte in `%hhx`, then `":%hhx"`
for every further byte, then two newlines. Never called with an empty blob
(the first byte is read unconditionally). -/
def fprinthex (pfx : String) (b : List Nat) : String :=
  match b with
  | [] => pfx ++ ":        "
  | f :: rest =>
      pfx ++ ":        " ++ hexByte f ++
        String.join (rest.map (fun c => ":" ++ hexByte c)) ++ "\n\n"

/-- The digest algorithms relevant here; `X509_digest` is called by the code
with one of these. -/
inductive HashAlg where
  | sha256
  | sha512
deriving DecidableEq

/-- Translation of `fprintfinger`, dtls.c lines 295–305, as the string it writes:
calls `X509_digest(cert, EVP_sha512(), …)` (the digest oracle is the
external crypto provider) and on success prints the digest via `fprinthex`;
on digest failure or an empty digest nothing is printed (`none`). -/
def fprintfinger (X509_digest : Nat → HashAlg → Option (List Nat))
    (pfx : String) (cert : Nat) : Option String :=
  match X509_digest cert HashAlg.sha512 with
  | none => none
  | some [] => none
  | some fp => some (fprinthex pfx fp)

/-- Uppercase hex digit characters, for the spec-side format. -/
def upperHexDigitChar (n : Nat) : Char :=
  match n with
  | 0 => '0' | 1 => '1' | 2 => '2' | 3 => '3' | 4 => '4'
  | 5 => '5' | 6 => '6' | 7 => '7' | 8 => '8' | 9 => '9'
  | 10 => 'A' | 11 => 'B' | 12 => 'C' | 13 => 'D' | 14 => 'E'
  | _ => 'F'

/-- Modelled from the spec: one octet as two uppercase hex digits. -/
def upperHexByte (b : Nat) : String :=
  String.mk [upperHexDigitChar (b % 256 / 16), upperHexDigitChar (b % 16)]

/-- Modelled from the spec: the fingerprint format the spec describes —
"SHA-256 digest … formatted as uppercase hex octets joined by `:` …, no
trailing separator". Applied to a digest, it yields e.g. `"3B:F2:A0"`. -/
def spec_fingerprint_format (digest : List Nat) : String :=
  String.intercalate ":" (digest.map upperHexByte)

/-- Model of `enum srtp_profile` from dtls.h. -/
inductive srtp_profile where
  | RESERVED
  | AES128_CM_SHA1_80
  | AES128_CM_SHA1_32
deriving DecidableEq, Repr

/-- Model of `struct tlscfg` from dtls.h (the cipher list is the fixed constant). -/
structure tlscfg where
  cert : Nat
  pkey : Nat
  profile : srtp_profile
deriving DecidableEq, Repr

/-- Translation of `dtls_build_tlscfg`, dtls.c lines 307–331: fixed profile
`AES128_CM_SHA1_80` and cipher list; parse the certificate blob with the
external PEM parser (null on failure), then the private-key blob likewise.
No key/certificate consistency check happens here. -/
def dtls_build_tlscfg (PEM_read_bio_X509 : List Nat → Option Nat)
    (PEM_read_bio_PrivateKey : List Nat → Option Nat)
    (cert_data key_data : List Nat) : Option tlscfg :=
  match PEM_read_bio_X509 cert_data with
  | none => none
  | some cert =>
      match PEM_read_bio_PrivateKey key_data with
      | none => none
      | some pkey =>
          some { cert := cert, pkey := pkey
                 profile := srtp_profile.AES128_CM_SHA1_80 }

/-- The external `SSL_CTX_*` acceptance checks that `dtls_ctx_init` relies
on; `check_private_key` is `SSL_CTX_check_private_key`, the key/certificate
consistency test. -/
structure CtxOps where
  use_certificate : Nat → Bool
  use_PrivateKey : Nat → Bool
  check_private_key : Nat → Nat → Bool
  set_cipher_list_ok : Bool

/-- Translation of `dtls_ctx_init`, dtls.c lines 74–117 (the part the claims touch):
reject an unknown SRTP profile; then `SSL_CTX_use_certificate`,
`SSL_CTX_use_PrivateKey` and `SSL_CTX_check_private_key`, and the cipher
list — any failure frees the context and returns null. -/
def dtls_ctx_init (ops : CtxOps) (cfg : tlscfg) : Option Unit :=
  match cfg.profile with
  | srtp_profile.RESERVED => none
  | _ =>
      if ops.use_certificate cfg.cert then
        if ops.use_PrivateKey cfg.pkey ∧ ops.check_private_key cfg.cert cfg.pkey
        then
          if ops.set_cipher_list_ok then some () else none
        else none
      else none

/-- Translation of `dtls_build_sslctx`, dtls.c lines 333–338: null in, null out;
otherwise `dtls_ctx_init` with fingerprint verification. -/
def dtls_build_sslctx (ops : CtxOps) (cfg : Option tlscfg) : Option Unit :=
  match cfg with
  | none => none
  | some c => dtls_ctx_init ops c

/-- An all-zero key-material buffer of the fixed exported size. -/
def exKM : { l : List Nat // l.length = KEY_MATERIAL_LEN } :=
  ⟨List.replicate KEY_MATERIAL_LEN 0, by simp⟩

/-- A deterministic no-op engine used to instantiate the theorems on
concrete inputs: the handshake step and read do nothing, nothing is fatal,
and the exporter yields an all-zero buffer. -/
def idEngine : Engine where
  doHandshake := fun st => st
  sslRead := fun st _ => (st, 0)
  isFatal := fun _ _ => false
  exportKM := fun _ => some exKM

/-- A concrete quiescent engine state. -/
def exSsl : SslState :=
  { rbio := [], wbio := [], initFinished := false, accepting := false
    inner := 0 }

/-- The state `exSsl` with the handshake finished. -/
def exSslFin : SslState := { exSsl with initFinished := true }

/-- The state `exSsl` with three bytes pending in the write BIO. -/
def exSslPending : SslState := { exSsl with wbio := [1, 2, 3] }

/-- A fresh symmetric-negotiation session over `exSsl`. -/
def exSessAP : dtls_sess :=
  { ssl := some exSsl, state := dtls_con_state.ACTPASS
    type := dtls_con_type.NEW }

/-- A fresh initiator session over `exSsl`. -/
def exSessAct : dtls_sess :=
  { ssl := some exSsl, state := dtls_con_state.ACT
    type := dtls_con_type.NEW }

/-- A session whose handshake handle has been released. -/
def exSessDead : dtls_sess :=
  { ssl := none, state := dtls_con_state.ACT, type := dtls_con_type.NEW }

/-- A concrete digest oracle: every certificate hashes to the single byte
`0xAB` under SHA-256 and to `0xCD` under SHA-512. -/
def exDigest : Nat → HashAlg → Option (List Nat) :=
  fun _ alg =>
    match alg with
    | HashAlg.sha256 => some [171]
    | HashAlg.sha512 => some [205]

/-- A PEM parser oracle that accepts every blob. -/
def exParse : List Nat → Option Nat := fun _ => some 0

/-- Context oracles where everything succeeds except the key/certificate
consistency check. -/
def exCtxOpsBad : CtxOps :=
  { use_certificate := fun _ => true
    use_PrivateKey := fun _ => true
    check_private_key := fun _ _ => false
    set_cipher_list_ok := true }

theorem roleLe_refl (a : dtls_con_state) : roleLe a a := Or.inl rfl

theorem roleLe_trans {a b c : dtls_con_state} (h1 : roleLe a b)
    (h2 : roleLe b c) : roleLe a c := by
  rcases h1 with h1 | ⟨ha, hb⟩
  · rwa [h1]
  · rcases h2 with h2 | ⟨hb2, _⟩
    · exact Or.inr ⟨ha, h2 ▸ hb⟩
    · rcases hb with hb | hb <;> rw [hb] at hb2 <;> cases hb2

theorem typeLe_refl (a : dtls_con_type) : typeLe a a := Or.inl rfl

theorem typeLe_trans {a b c : dtls_con_type} (h1 : typeLe a b)
    (h2 : typeLe b c) : typeLe a c := by
  rcases h1 with h1 | ⟨ha, hb⟩
  · rwa [h1]
  · rcases h2 with h2 | ⟨_, hc⟩
    · exact Or.inr ⟨ha, h2 ▸ hb⟩
    · exact Or.inr ⟨ha, hc⟩

theorem roleLe_fixed {a b : dtls_con_state} (h : roleLe a b)
    (ha : a ≠ dtls_con_state.ACTPASS) : b = a := by
  rcases h with h | ⟨h1, _⟩
  · exact h.symm
  · exact absurd h1 ha

theorem typeLe_fixed {b : dtls_con_type}
    (h : typeLe dtls_con_type.EXISTING b) : b = dtls_con_type.EXISTING := by
  rcases h with h | ⟨h1, _⟩
  · exact h.symm
  · cases h1

theorem put_packet_state_eq (E : Engine) (s : dtls_sess) (out : SendLog)
    (buf : List Nat) :
    (dtls_sess_put_packet E s out buf).2.1.state =
      (match s.ssl with
       | none => s.state
       | some _ =>
           if s.state = dtls_con_state.ACTPASS then dtls_con_state.PASS
           else s.state) := by
  cases hssl : s.ssl with
  | none => simp [dtls_sess_put_packet, hssl]
  | some ssl0 =>
      simp only [dtls_sess_put_packet, hssl]
      split <;> split <;> rfl

theorem put_packet_type_cases (E : Engine) (s : dtls_sess) (out : SendLog)
    (buf : List Nat) :
    (dtls_sess_put_packet E s out buf).2.1.type = s.type ∨
    ((dtls_sess_put_packet E s out buf).2.1.type = dtls_con_type.EXISTING ∧
     ∃ t, (dtls_sess_put_packet E s out buf).2.1.ssl = some t ∧
          t.initFinished = true) := by
  cases hssl : s.ssl with
  | none => simp [dtls_sess_put_packet, hssl]
  | some ssl0 =>
      simp only [dtls_sess_put_packet, hssl]
      split <;> split
      · left ; rfl
      · split
        · rename_i hf
          exact Or.inr ⟨rfl, _, rfl, hf⟩
        · left ; rfl
      · left ; rfl
      · split
        · rename_i hf
          exact Or.inr ⟨rfl, _, rfl, hf⟩
        · left ; rfl

theorem do_handshake_state_eq (E : Engine) (s : dtls_sess) (out : SendLog) :
    (dtls_do_handshake E s out).2.1.state =
      (match s.ssl with
       | none => s.state
       | some _ =>
           if s.state = dtls_con_state.ACTPASS then dtls_con_state.ACT
           else s.state) := by
  cases hssl : s.ssl with
  | none => simp [dtls_do_handshake, hssl]
  | some ssl0 =>
      simp only [dtls_do_handshake, hssl]
      split
      · rename_i hbad
        have : ¬ s.state = dtls_con_state.ACTPASS := hbad.2
        simp [this]
      · split <;> rfl

theorem do_handshake_type_eq (E : Engine) (s : dtls_sess) (out : SendLog) :
    (dtls_do_handshake E s out).2.1.type = s.type := by
  cases hssl : s.ssl with
  | none => simp [dtls_do_handshake, hssl]
  | some ssl0 =>
      simp only [dtls_do_handshake, hssl]
      split
      · rfl
      · split <;> rfl

theorem typeLe_existing (a : dtls_con_type) : typeLe a dtls_con_type.EXISTING := by
  cases a
  · exact Or.inr ⟨rfl, rfl⟩
  · exact Or.inl rfl

theorem applyOp_roleLe (E : Engine) (op : SessOp) (w : dtls_sess × SendLog) :
    roleLe w.1.state (applyOp E op w).1.state := by
  cases op with
  | drive =>
      show roleLe w.1.state (dtls_do_handshake E w.1 w.2).2.1.state
      rw [do_handshake_state_eq E w.1 w.2]
      cases hssl : w.1.ssl
      · exact roleLe_refl _
      · by_cases hst : w.1.state = dtls_con_state.ACTPASS
        · simp only [hst, if_pos rfl]
          exact Or.inr ⟨rfl, Or.inl rfl⟩
        · simp only [if_neg hst]
          exact roleLe_refl _
  | ingest buf =>
      show roleLe w.1.state (dtls_sess_put_packet E w.1 w.2 buf).2.1.state
      rw [put_packet_state_eq E w.1 w.2 buf]
      cases hssl : w.1.ssl
      · exact roleLe_refl _
      · by_cases hst : w.1.state = dtls_con_state.ACTPASS
        · simp only [hst, if_pos rfl]
          exact Or.inr ⟨rfl, Or.inr rfl⟩
        · simp only [if_neg hst]
          exact roleLe_refl _

theorem applyOp_typeLe (E : Engine) (op : SessOp) (w : dtls_sess × SendLog) :
    typeLe w.1.type (applyOp E op w).1.type := by
  cases op with
  | drive =>
      show typeLe w.1.type (dtls_do_handshake E w.1 w.2).2.1.type
      rw [do_handshake_type_eq E w.1 w.2]
      exact typeLe_refl _
  | ingest buf =>
      rcases put_packet_type_cases E w.1 w.2 buf with h | ⟨h, _⟩
      · show typeLe w.1.type (dtls_sess_put_packet E w.1 w.2 buf).2.1.type
        rw [h]
        exact typeLe_refl _
      · show typeLe w.1.type (dtls_sess_put_packet E w.1 w.2 buf).2.1.type
        rw [h]
        exact typeLe_existing _

theorem runOps_roleLe (ops : List (Engine × SessOp)) (w : dtls_sess × SendLog) :
    roleLe w.1.state (runOps ops w).1.state := by
  induction ops generalizing w with
  | nil => exact roleLe_refl _
  | cons p rest ih =>
      have h1 := applyOp_roleLe p.1 p.2 w
      have h2 := ih (applyOp p.1 p.2 w)
      simp only [runOps, List.foldl] at h2 ⊢
      exact roleLe_trans h1 h2

theorem runOps_typeLe (ops : List (Engine × SessOp)) (w : dtls_sess × SendLog) :
    typeLe w.1.type (runOps ops w).1.type := by
  induction ops generalizing w with
  | nil => exact typeLe_refl _
  | cons p rest ih =>
      have h1 := applyOp_typeLe p.1 p.2 w
      have h2 := ih (applyOp p.1 p.2 w)
      simp only [runOps, List.foldl] at h2 ⊢
      exact typeLe_trans h1 h2

theorem applyOp_state_change (E : Engine) (op : SessOp)
    (w : dtls_sess × SendLog)
    (h : (applyOp E op w).1.state ≠ w.1.state) :
    w.1.state = dtls_con_state.ACTPASS ∧
    ((op = SessOp.drive ∧ (applyOp E op w).1.state = dtls_con_state.ACT) ∨
     ((∃ b, op = SessOp.ingest b) ∧
      (applyOp E op w).1.state = dtls_con_state.PASS)) := by
  cases op with
  | drive =>
      simp only [applyOp] at h ⊢
      have hst := do_handshake_state_eq E w.1 w.2
      cases hssl : w.1.ssl with
      | none =>
          simp only [hssl] at hst
          exact absurd hst h
      | some ssl0 =>
          simp only [hssl] at hst
          by_cases hap : w.1.state = dtls_con_state.ACTPASS
          · rw [if_pos hap] at hst
            exact ⟨hap, Or.inl ⟨by trivial, hst⟩⟩
          · rw [if_neg hap] at hst
            exact absurd hst h
  | ingest buf =>
      simp only [applyOp] at h ⊢
      have hst := put_packet_state_eq E w.1 w.2 buf
      cases hssl : w.1.ssl with
      | none =>
          simp only [hssl] at hst
          exact absurd hst h
      | some ssl0 =>
          simp only [hssl] at hst
          by_cases hap : w.1.state = dtls_con_state.ACTPASS
          · rw [if_pos hap] at hst
            exact ⟨hap, Or.inr ⟨⟨buf, rfl⟩, hst⟩⟩
          · rw [if_neg hap] at hst
            exact absurd hst h

theorem applyOp_type_change (E : Engine) (op : SessOp)
    (w : dtls_sess × SendLog)
    (h : (applyOp E op w).1.type ≠ w.1.type) :
    w.1.type = dtls_con_type.NEW ∧
    (applyOp E op w).1.type = dtls_con_type.EXISTING ∧
    (∃ b, op = SessOp.ingest b) ∧
    ∃ t, (applyOp E op w).1.ssl = some t ∧ t.initFinished = true := by
  cases op with
  | drive =>
      simp only [applyOp] at h
      exact absurd (do_handshake_type_eq E w.1 w.2) h
  | ingest buf =>
      simp only [applyOp] at h ⊢
      rcases put_packet_type_cases E w.1 w.2 buf with he | ⟨he, t, hts, htf⟩
      · exact absurd he h
      · have hnew : w.1.type = dtls_con_type.NEW := by
          cases hty : w.1.type
          · rfl
          · rw [he, hty] at h
            exact absurd rfl h
        exact ⟨hnew, he, ⟨buf, rfl⟩, t, hts, htf⟩

/-- C1: for every session and every sequence of `drive_handshake`
(`dtls_do_handshake`) and `ingest` (`dtls_sess_put_packet`) operations, the
role is monotone and one-directional — it changes only `ACTPASS → ACT` on a
locally driven handshake step or `ACTPASS → PASS` on an inbound packet
while undecided, and a session whose role is `ACT` or `PASS` keeps that
role forever; the connection kind changes only `NEW → EXISTING`, never
reverts, and a step that flips it is an ingest after which the underlying
engine reports `SSL_is_init_finished`. -/
theorem claim_C1_role_connection_monotonic
    (ops : List (Engine × SessOp)) (w : dtls_sess × SendLog)
    (E : Engine) (op : SessOp) :
    roleLe w.1.state (runOps ops w).1.state ∧
    typeLe w.1.type (runOps ops w).1.type ∧
    ((w.1.state = dtls_con_state.ACT ∨ w.1.state = dtls_con_state.PASS) →
      (runOps ops w).1.state = w.1.state) ∧
    (w.1.type = dtls_con_type.EXISTING →
      (runOps ops w).1.type = dtls_con_type.EXISTING) ∧
    ((applyOp E op w).1.state ≠ w.1.state →
      w.1.state = dtls_con_state.ACTPASS ∧
      ((op = SessOp.drive ∧ (applyOp E op w).1.state = dtls_con_state.ACT) ∨
       ((∃ b, op = SessOp.ingest b) ∧
        (applyOp E op w).1.state = dtls_con_state.PASS))) ∧
    ((applyOp E op w).1.type ≠ w.1.type →
      w.1.type = dtls_con_type.NEW ∧
      (applyOp E op w).1.type = dtls_con_type.EXISTING ∧
      (∃ b, op = SessOp.ingest b) ∧
      ∃ t, (applyOp E op w).1.ssl = some t ∧ t.initFinished = true) := by
  refine ⟨runOps_roleLe ops w, runOps_typeLe ops w, ?_, ?_,
    applyOp_state_change E op w, applyOp_type_change E op w⟩
  · intro hw
    apply roleLe_fixed (runOps_roleLe ops w)
    rcases hw with h | h <;> rw [h] <;> intro hc <;> cases hc
  · intro hw
    have hm := runOps_typeLe ops w
    rw [hw] at hm
    exact typeLe_fixed hm

/-- Instantiation of C1 on a concrete run: a symmetric session ingests one
packet under the no-op engine (resolving to `PASS`), while the single-step
clauses are checked for a drive step. -/
theorem claim_C1_witness :
    roleLe (exSessAP, ([] : SendLog)).1.state
      (runOps [(idEngine, SessOp.ingest [1])]
        (exSessAP, ([] : SendLog))).1.state ∧
    typeLe (exSessAP, ([] : SendLog)).1.type
      (runOps [(idEngine, SessOp.ingest [1])]
        (exSessAP, ([] : SendLog))).1.type ∧
    (((exSessAP, ([] : SendLog)).1.state = dtls_con_state.ACT ∨
      (exSessAP, ([] : SendLog)).1.state = dtls_con_state.PASS) →
      (runOps [(idEngine, SessOp.ingest [1])]
        (exSessAP, ([] : SendLog))).1.state =
        (exSessAP, ([] : SendLog)).1.state) ∧
    ((exSessAP, ([] : SendLog)).1.type = dtls_con_type.EXISTING →
      (runOps [(idEngine, SessOp.ingest [1])]
        (exSessAP, ([] : SendLog))).1.type = dtls_con_type.EXISTING) ∧
    ((applyOp idEngine SessOp.drive (exSessAP, ([] : SendLog))).1.state ≠
        (exSessAP, ([] : SendLog)).1.state →
      (exSessAP, ([] : SendLog)).1.state = dtls_con_state.ACTPASS ∧
      ((SessOp.drive = SessOp.drive ∧
        (applyOp idEngine SessOp.drive
          (exSessAP, ([] : SendLog))).1.state = dtls_con_state.ACT) ∨
       ((∃ b, SessOp.drive = SessOp.ingest b) ∧
        (applyOp idEngine SessOp.drive
          (exSessAP, ([] : SendLog))).1.state = dtls_con_state.PASS))) ∧
    ((applyOp idEngine SessOp.drive (exSessAP, ([] : SendLog))).1.type ≠
        (exSessAP, ([] : SendLog)).1.type →
      (exSessAP, ([] : SendLog)).1.type = dtls_con_type.NEW ∧
      (applyOp idEngine SessOp.drive
        (exSessAP, ([] : SendLog))).1.type = dtls_con_type.EXISTING ∧
      (∃ b, SessOp.drive = SessOp.ingest b) ∧
      ∃ t, (applyOp idEngine SessOp.drive
        (exSessAP, ([] : SendLog))).1.ssl = some t ∧
        t.initFinished = true) :=
  claim_C1_role_connection_monotonic [(idEngine, SessOp.ingest [1])]
    (exSessAP, ([] : SendLog)) idEngine SessOp.drive

theorem flush_wbio_nonneg (ssl : SslState) (out : SendLog) :
    0 ≤ (flush_wbio ssl out).1 := by
  unfold flush_wbio
  split
  · exact Int.natCast_nonneg _
  · exact le_refl 0

/-- C2: `dtls_do_handshake` succeeds only when the role is `ACT` or
`ACTPASS`; with `ACTPASS` it resolves the role to `ACT` first, then runs
the engine's handshake step and flushes any produced output; with a dead
handle, `PASS` or `HOLDCONN` it returns the `-2` (WrongState) sentinel and
changes nothing. -/
theorem claim_C2_drive_handshake (E : Engine) (s : dtls_sess) (out : SendLog)
    (ssl0 : SslState) :
    ((s.ssl = none ∨ s.state = dtls_con_state.PASS ∨
      s.state = dtls_con_state.HOLDCONN) →
      dtls_do_handshake E s out = (-2, s, out)) ∧
    (s.ssl = some ssl0 →
      (s.state = dtls_con_state.ACT ∨ s.state = dtls_con_state.ACTPASS) →
      dtls_do_handshake E s out =
        ((flush_wbio (E.doHandshake ssl0) out).1,
         { s with
             state := if s.state = dtls_con_state.ACTPASS
                      then dtls_con_state.ACT else s.state,
             ssl := some (flush_wbio (E.doHandshake ssl0) out).2.1 },
         (flush_wbio (E.doHandshake ssl0) out).2.2) ∧
      0 ≤ (dtls_do_handshake E s out).1) := by
  constructor
  · intro h
    rcases h with h | h | h
    · simp [dtls_do_handshake, h]
    · cases hssl : s.ssl with
      | none => simp [dtls_do_handshake, hssl]
      | some t => simp [dtls_do_handshake, hssl, h]
    · cases hssl : s.ssl with
      | none => simp [dtls_do_handshake, hssl]
      | some t => simp [dtls_do_handshake, hssl, h]
  · intro hssl hstate
    have hres : dtls_do_handshake E s out =
        ((flush_wbio (E.doHandshake ssl0) out).1,
         { s with
             state := if s.state = dtls_con_state.ACTPASS
                      then dtls_con_state.ACT else s.state,
             ssl := some (flush_wbio (E.doHandshake ssl0) out).2.1 },
         (flush_wbio (E.doHandshake ssl0) out).2.2) := by
      rcases hstate with h | h <;> simp [dtls_do_handshake, hssl, h]
    refine ⟨hres, ?_⟩
    rw [hres]
    exact flush_wbio_nonneg _ _

/-- Instantiation of C2: a pinned-`ACT` session with nothing pending under
the no-op engine drives the handshake and reports 0 bytes flushed. -/
theorem claim_C2_witness :
    ((exSessAct.ssl = none ∨ exSessAct.state = dtls_con_state.PASS ∨
      exSessAct.state = dtls_con_state.HOLDCONN) →
      dtls_do_handshake idEngine exSessAct [] = (-2, exSessAct, [])) ∧
    (exSessAct.ssl = some exSsl →
      (exSessAct.state = dtls_con_state.ACT ∨
       exSessAct.state = dtls_con_state.ACTPASS) →
      dtls_do_handshake idEngine exSessAct [] =
        ((flush_wbio (idEngine.doHandshake exSsl) []).1,
         { exSessAct with
             state := if exSessAct.state = dtls_con_state.ACTPASS
                      then dtls_con_state.ACT else exSessAct.state,
             ssl := some (flush_wbio (idEngine.doHandshake exSsl) []).2.1 },
         (flush_wbio (idEngine.doHandshake exSsl) []).2.2) ∧
      0 ≤ (dtls_do_handshake idEngine exSessAct []).1) :=
  claim_C2_drive_handshake idEngine exSessAct [] exSsl

/-- C5: `dtls_sess_send_pending` returns `-2` when the session has no live
handshake handle; returns `0` when nothing is pending, leaving the session
and the emitted-output log wholly unchanged (so every repeated call also
returns `0`); and otherwise drains the whole pending buffer in one pass,
emits it as one buffer, and returns the byte count. -/
theorem claim_C5_flush (s : dtls_sess) (out : SendLog) (ssl0 : SslState) :
    (s.ssl = none → dtls_sess_send_pending s out = (-2, s, out)) ∧
    (s.ssl = some ssl0 → ssl0.wbio = [] →
      dtls_sess_send_pending s out = (0, s, out) ∧
      dtls_sess_send_pending (dtls_sess_send_pending s out).2.1
        (dtls_sess_send_pending s out).2.2 = (0, s, out)) ∧
    (s.ssl = some ssl0 → ssl0.wbio ≠ [] →
      dtls_sess_send_pending s out =
        ((ssl0.wbio.length : Int),
         { s with ssl := some { ssl0 with wbio := [] } },
         out ++ [ssl0.wbio])) := by
  refine ⟨?_, ?_, ?_⟩
  · intro h
    simp [dtls_sess_send_pending, h]
  · intro hssl hw
    have h1 : dtls_sess_send_pending s out = (0, s, out) := by
      simp only [dtls_sess_send_pending, hssl, flush_wbio, hw]
      simp [← hssl]
    exact ⟨h1, by rw [h1]; exact h1⟩
  · intro hssl hw
    have hpos : 0 < ssl0.wbio.length := List.length_pos.mpr hw
    simp [dtls_sess_send_pending, hssl, flush_wbio, hpos]

/-- Instantiation of C5: a dead session yields `-2`; a quiescent session
yields `0` repeatedly; a session with three pending bytes flushes them all
at once and returns 3. -/
theorem claim_C5_witness :
    ((exSessDead.ssl = none →
      dtls_sess_send_pending exSessDead [] = (-2, exSessDead, [])) ∧
     (exSessDead.ssl = some exSsl → exSsl.wbio = [] →
      dtls_sess_send_pending exSessDead [] = (0, exSessDead, []) ∧
      dtls_sess_send_pending (dtls_sess_send_pending exSessDead []).2.1
        (dtls_sess_send_pending exSessDead []).2.2 = (0, exSessDead, [])) ∧
     (exSessDead.ssl = some exSsl → exSsl.wbio ≠ [] →
      dtls_sess_send_pending exSessDead [] =
        ((exSsl.wbio.length : Int),
         { exSessDead with ssl := some { exSsl with wbio := [] } },
         [] ++ [exSsl.wbio]))) ∧
    ((exSessAct.ssl = none →
      dtls_sess_send_pending exSessAct [] = (-2, exSessAct, [])) ∧
     (exSessAct.ssl = some exSsl → exSsl.wbio = [] →
      dtls_sess_send_pending exSessAct [] = (0, exSessAct, []) ∧
      dtls_sess_send_pending (dtls_sess_send_pending exSessAct []).2.1
        (dtls_sess_send_pending exSessAct []).2.2 = (0, exSessAct, [])) ∧
     (exSessAct.ssl = some exSsl → exSsl.wbio ≠ [] →
      dtls_sess_send_pending exSessAct [] =
        ((exSsl.wbio.length : Int),
         { exSessAct with ssl := some { exSsl with wbio := [] } },
         [] ++ [exSsl.wbio]))) ∧
    ((({ exSessAct with ssl := some exSslPending } : dtls_sess).ssl = none →
      dtls_sess_send_pending { exSessAct with ssl := some exSslPending } [] =
        (-2, { exSessAct with ssl := some exSslPending }, [])) ∧
     (({ exSessAct with ssl := some exSslPending } : dtls_sess).ssl =
        some exSslPending → exSslPending.wbio = [] →
      dtls_sess_send_pending { exSessAct with ssl := some exSslPending } [] =
        (0, { exSessAct with ssl := some exSslPending }, []) ∧
      dtls_sess_send_pending
        (dtls_sess_send_pending
          { exSessAct with ssl := some exSslPending } []).2.1
        (dtls_sess_send_pending
          { exSessAct with ssl := some exSslPending } []).2.2 =
        (0, { exSessAct with ssl := some exSslPending }, [])) ∧
     (({ exSessAct with ssl := some exSslPending } : dtls_sess).ssl =
        some exSslPending → exSslPending.wbio ≠ [] →
      dtls_sess_send_pending { exSessAct with ssl := some exSslPending } [] =
        ((exSslPending.wbio.length : Int),
         { exSessAct with ssl := some { exSslPending with wbio := [] } },
         [] ++ [exSslPending.wbio]))) :=
  ⟨claim_C5_flush exSessDead [] exSsl,
   claim_C5_flush exSessAct [] exSsl,
   claim_C5_flush { exSessAct with ssl := some exSslPending } [] exSslPending⟩

/-- C10: with a released handshake handle (`ssl = NULL`), `ingest`
(`dtls_sess_put_packet`) returns the `-1` sentinel — distinct from the `-2`
that `dtls_sess_send_pending` returns for the same condition — and leaves
role, connection kind and the emitted-output log unchanged. -/
theorem claim_C10_dead_handle_sentinels (E : Engine) (s : dtls_sess)
    (out : SendLog) (buf : List Nat) (h : s.ssl = none) :
    dtls_sess_put_packet E s out buf = (-1, s, out) ∧
    dtls_sess_send_pending s out = (-2, s, out) ∧
    (-1 : Int) ≠ (-2 : Int) := by
  refine ⟨?_, ?_, by decide⟩
  · simp [dtls_sess_put_packet, h]
  · simp [dtls_sess_send_pending, h]

/-- Instantiation of C10 on a concrete dead session. -/
theorem claim_C10_witness :
    dtls_sess_put_packet idEngine exSessDead [] [7] = (-1, exSessDead, []) ∧
    dtls_sess_send_pending exSessDead [] = (-2, exSessDead, []) ∧
    (-1 : Int) ≠ (-2 : Int) :=
  claim_C10_dead_handle_sentinels idEngine exSessDead [] [7] rfl

/-- C3: `srtp_get_key_material` returns null on every call made while the
underlying handshake has not reported completion, and once it has (and the
engine's exporter succeeds) it returns key material of the fixed length
`2 × (MASTER_KEY_LEN + MASTER_SALT_LEN) = 60` bytes tagged with the
session's resolved role at export time. -/
theorem claim_C3_export (E : Engine) (s : dtls_sess) (ssl0 : SslState)
    (km : { l : List Nat // l.length = KEY_MATERIAL_LEN }) :
    (s.ssl = none → srtp_get_key_material E s = none) ∧
    (s.ssl = some ssl0 → ssl0.initFinished = false →
      srtp_get_key_material E s = none) ∧
    (s.ssl = some ssl0 → ssl0.initFinished = true →
      E.exportKM ssl0 = some km →
      srtp_get_key_material E s =
        some { material := km.1, ispassive := s.state } ∧
      km.1.length = 2 * (MASTER_KEY_LEN + MASTER_SALT_LEN) ∧
      km.1.length = 60) := by
  refine ⟨?_, ?_, ?_⟩
  · intro h
    simp [srtp_get_key_material, h]
  · intro hssl hfin
    simp [srtp_get_key_material, hssl, hfin]
  · intro hssl hfin hkm
    refine ⟨by simp [srtp_get_key_material, hssl, hfin, hkm], ?_, ?_⟩
    · rw [km.2]
      unfold KEY_MATERIAL_LEN
      ring
    · rw [km.2]
      unfold KEY_MATERIAL_LEN MASTER_KEY_LEN MASTER_SALT_LEN
      norm_num

/-- Instantiation of C3: before completion export is null; after completion
under the no-op engine it yields the 60-byte all-zero material tagged with
the role. -/
theorem claim_C3_witness :
    (({ ssl := some exSslFin, state := dtls_con_state.PASS,
        type := dtls_con_type.EXISTING } : dtls_sess).ssl = none →
      srtp_get_key_material idEngine
        { ssl := some exSslFin, state := dtls_con_state.PASS,
          type := dtls_con_type.EXISTING } = none) ∧
    (({ ssl := some exSslFin, state := dtls_con_state.PASS,
        type := dtls_con_type.EXISTING } : dtls_sess).ssl = some exSslFin →
      exSslFin.initFinished = false →
      srtp_get_key_material idEngine
        { ssl := some exSslFin, state := dtls_con_state.PASS,
          type := dtls_con_type.EXISTING } = none) ∧
    (({ ssl := some exSslFin, state := dtls_con_state.PASS,
        type := dtls_con_type.EXISTING } : dtls_sess).ssl = some exSslFin →
      exSslFin.initFinished = true →
      idEngine.exportKM exSslFin = some exKM →
      srtp_get_key_material idEngine
        { ssl := some exSslFin, state := dtls_con_state.PASS,
          type := dtls_con_type.EXISTING } =
        some { material := exKM.1,
               ispassive :=
                 ({ ssl := some exSslFin, state := dtls_con_state.PASS,
                    type := dtls_con_type.EXISTING } : dtls_sess).state } ∧
      exKM.1.length = 2 * (MASTER_KEY_LEN + MASTER_SALT_LEN) ∧
      exKM.1.length = 60) :=
  claim_C3_export idEngine
    { ssl := some exSslFin, state := dtls_con_state.PASS,
      type := dtls_con_type.EXISTING } exSslFin exKM

/-- C4: for every exported key-material buffer, the `ACT` partition and the
`PASS` partition computed by `srtp_key_material_extract` are exact mirror
images: the ranges `ACT` designates local key/salt are exactly the ranges
`PASS` designates peer key/salt and vice versa, with `ACT` reading
local-then-peer and `PASS` reading peer-then-local (each side's designated
reading order reassembles the whole buffer). -/
theorem claim_C4_mirror (m : List Nat) (hm : m.length = KEY_MATERIAL_LEN) :
    (srtp_key_material_extract
        { material := m, ispassive := dtls_con_state.ACT }).localkey =
      (srtp_key_material_extract
        { material := m, ispassive := dtls_con_state.PASS }).remotekey ∧
    (srtp_key_material_extract
        { material := m, ispassive := dtls_con_state.ACT }).remotekey =
      (srtp_key_material_extract
        { material := m, ispassive := dtls_con_state.PASS }).localkey ∧
    (srtp_key_material_extract
        { material := m, ispassive := dtls_con_state.ACT }).localsalt =
      (srtp_key_material_extract
        { material := m, ispassive := dtls_con_state.PASS }).remotesalt ∧
    (srtp_key_material_extract
        { material := m, ispassive := dtls_con_state.ACT }).remotesalt =
      (srtp_key_material_extract
        { material := m, ispassive := dtls_con_state.PASS }).localsalt ∧
    (srtp_key_material_extract
        { material := m, ispassive := dtls_con_state.ACT }).localkey ++
      (srtp_key_material_extract
        { material := m, ispassive := dtls_con_state.ACT }).remotekey ++
      (srtp_key_material_extract
        { material := m, ispassive := dtls_con_state.ACT }).localsalt ++
      (srtp_key_material_extract
        { material := m, ispassive := dtls_con_state.ACT }).remotesalt = m ∧
    (srtp_key_material_extract
        { material := m, ispassive := dtls_con_state.PASS }).remotekey ++
      (srtp_key_material_extract
        { material := m, ispassive := dtls_con_state.PASS }).localkey ++
      (srtp_key_material_extract
        { material := m, ispassive := dtls_con_state.PASS }).remotesalt ++
      (srtp_key_material_extract
        { material := m, ispassive := dtls_con_state.PASS }).localsalt = m := by
  have e1 : (m.drop 46).take 14 = m.drop 46 := by
    apply List.take_of_length_le
    rw [List.length_drop, hm]
    norm_num [KEY_MATERIAL_LEN, MASTER_KEY_LEN, MASTER_SALT_LEN]
  have ad : (m.drop 32).drop 14 = m.drop 46 := by
    rw [List.drop_drop]
  have bd : (m.drop 16).drop 16 = m.drop 32 := by
    rw [List.drop_drop]
  have hcat : m.take 16 ++ ((m.drop 16).take 16 ++
      ((m.drop 32).take 14 ++ (m.drop 46).take 14)) = m := by
    rw [e1, ← ad, List.take_append_drop, ← bd, List.take_append_drop,
      List.take_append_drop]
  simp only [srtp_key_material_extract, MASTER_KEY_LEN, MASTER_SALT_LEN,
    reduceIte]
  refine ⟨rfl, rfl, rfl, rfl, ?_, ?_⟩ <;>
    · rw [List.append_assoc, List.append_assoc]
      exact hcat

/-- Instantiation of C4 on the all-zero 60-byte buffer. -/
theorem claim_C4_witness :
    (srtp_key_material_extract
        { material := exKM.1, ispassive := dtls_con_state.ACT }).localkey =
      (srtp_key_material_extract
        { material := exKM.1, ispassive := dtls_con_state.PASS }).remotekey ∧
    (srtp_key_material_extract
        { material := exKM.1, ispassive := dtls_con_state.ACT }).remotekey =
      (srtp_key_material_extract
        { material := exKM.1, ispassive := dtls_con_state.PASS }).localkey ∧
    (srtp_key_material_extract
        { material := exKM.1, ispassive := dtls_con_state.ACT }).localsalt =
      (srtp_key_material_extract
        { material := exKM.1, ispassive := dtls_con_state.PASS }).remotesalt ∧
    (srtp_key_material_extract
        { material := exKM.1, ispassive := dtls_con_state.ACT }).remotesalt =
      (srtp_key_material_extract
        { material := exKM.1, ispassive := dtls_con_state.PASS }).localsalt ∧
    (srtp_key_material_extract
        { material := exKM.1, ispassive := dtls_con_state.ACT }).localkey ++
      (srtp_key_material_extract
        { material := exKM.1, ispassive := dtls_con_state.ACT }).remotekey ++
      (srtp_key_material_extract
        { material := exKM.1, ispassive := dtls_con_state.ACT }).localsalt ++
      (srtp_key_material_extract
        { material := exKM.1, ispassive := dtls_con_state.ACT }).remotesalt =
      exKM.1 ∧
    (srtp_key_material_extract
        { material := exKM.1, ispassive := dtls_con_state.PASS }).remotekey ++
      (srtp_key_material_extract
        { material := exKM.1, ispassive := dtls_con_state.PASS }).localkey ++
      (srtp_key_material_extract
        { material := exKM.1, ispassive := dtls_con_state.PASS }).remotesalt ++
      (srtp_key_material_extract
        { material := exKM.1, ispassive := dtls_con_state.PASS }).localsalt =
      exKM.1 :=
  claim_C4_mirror exKM.1 exKM.2

/-- C6 (the claim fails on the code): after enqueueing 7 then 8 the chain
holds `[7, 8]` in insertion order and the front message built by
`queue_get` is 7 — yet `queue_get` returns NULL (`none`, the timeout
sentinel) on both dequeues because the function ends in `return 0;`
instead of returning the message it just built. The internal removal is
FIFO, but no dequeued buffer is ever yielded to the caller. -/
theorem claim_C6_queue_get_returns_sentinel :
    (queue_put queue_init 7).2.first = [7] ∧
    (queue_put (queue_put queue_init 7).2 8).2.first = [7, 8] ∧
    queue_get_msg (queue_put (queue_put queue_init 7).2 8).2 = some 7 ∧
    (queue_get (queue_put (queue_put queue_init 7).2 8).2).1 = none ∧
    (queue_get (queue_put (queue_put queue_init 7).2 8).2).2.first = [8] ∧
    queue_get_msg
      (queue_get (queue_put (queue_put queue_init 7).2 8).2).2 = some 8 ∧
    (queue_get
      (queue_get (queue_put (queue_put queue_init 7).2 8).2).2).1 = none := by
  decide

/-- C7 counterexample: the fingerprint routine is not "SHA-256, uppercase".
With a certificate whose SHA-256 digest is `0xAB` and whose SHA-512 digest
is `0xCD`, `fprintfinger` prints `cd` — the SHA-512 byte, lowercase and
unpadded — and its output matches neither the uppercase colon-hex of the
SHA-256 digest (`AB`) nor even the uppercase form of its own digest. -/
theorem claim_C7_counterexample :
    fprintfinger exDigest "f" 0 = some ("f:        " ++ "cd" ++ "\n\n") ∧
    spec_fingerprint_format ((exDigest 0 HashAlg.sha256).getD []) = "AB" ∧
    spec_fingerprint_format ((exDigest 0 HashAlg.sha512).getD []) = "CD" ∧
    fprintfinger exDigest "f" 0 ≠ some ("f:        " ++ "AB" ++ "\n\n") ∧
    fprintfinger exDigest "f" 0 ≠ some ("f:        " ++ "CD" ++ "\n\n") := by
  decide

theorem hexDigitChar_mem (n : Nat) :
    hexDigitChar n ∈ "0123456789abcdef".data := by
  unfold hexDigitChar
  split <;> decide

theorem hexByte_lowercase (b : Nat) :
    ∀ c ∈ (hexByte b).data,
      c ∈ "0123456789abcdef".data := by
  intro c hc
  simp only [hexByte] at hc
  by_cases h : b % 256 < 16
  · rw [if_pos h] at hc
    have hc2 : c ∈ [hexDigitChar (b % 256)] := hc
    rcases List.mem_singleton.mp hc2 with rfl
    exact hexDigitChar_mem _
  · rw [if_neg h] at hc
    have hc2 : c ∈ [hexDigitChar (b % 256 / 16), hexDigitChar (b % 256 % 16)] :=
      hc
    rcases List.mem_pair.mp hc2 with rfl | rfl
    · exact hexDigitChar_mem _
    · exact hexDigitChar_mem _

/-- C7 amended: `fprintfinger` prints the SHA-512 digest of the
certificate (it depends on nothing but that digest), formatted by
`fprinthex` as lowercase minimal-width hex octets joined by `:` after the
label, with no trailing separator; it is pure and deterministic, so the
same certificate always yields the same string. -/
theorem claim_C7_amended_sha512_lowercase
    (d d2 : Nat → HashAlg → Option (List Nat)) (pfx : String) (cert : Nat)
    (f : Nat) (rest : List Nat)
    (hd : d cert HashAlg.sha512 = some (f :: rest)) :
    fprintfinger d pfx cert =
      some (pfx ++ ":        " ++ hexByte f ++
        String.join (rest.map (fun c => ":" ++ hexByte c)) ++ "\n\n") ∧
    (d2 cert HashAlg.sha512 = d cert HashAlg.sha512 →
      fprintfinger d2 pfx cert = fprintfinger d pfx cert) ∧
    (∀ b, ∀ c ∈ (hexByte b).data,
      c ∈ "0123456789abcdef".data) ∧
    fprintfinger d pfx cert = fprintfinger d pfx cert := by
  refine ⟨?_, ?_, fun b => hexByte_lowercase b, rfl⟩
  · simp [fprintfinger, hd, fprinthex]
  · intro h
    simp only [fprintfinger, h, hd]

/-- Instantiation of the amended C7 on the concrete digest oracle. -/
theorem claim_C7_amended_witness :
    fprintfinger exDigest "f" 0 =
      some ("f" ++ ":        " ++ hexByte 205 ++
        String.join (([] : List Nat).map (fun c => ":" ++ hexByte c)) ++
        "\n\n") ∧
    (exDigest 0 HashAlg.sha512 = exDigest 0 HashAlg.sha512 →
      fprintfinger exDigest "f" 0 = fprintfinger exDigest "f" 0) ∧
    (∀ b, ∀ c ∈ (hexByte b).data,
      c ∈ "0123456789abcdef".data) ∧
    fprintfinger exDigest "f" 0 = fprintfinger exDigest "f" 0 :=
  claim_C7_amended_sha512_lowercase exDigest exDigest "f" 0 205 [] rfl

/-- C8 counterexample: a zero-length ingest does not leave the role
unchanged — on a session whose role is still `ACTPASS`, `dtls_sess_put_packet`
with an empty buffer resolves the role to `PASS` (the role resolution at
lines 209–212 runs before the buffer is even looked at). -/
theorem claim_C8_counterexample :
    exSessAP.state = dtls_con_state.ACTPASS ∧
    (dtls_sess_put_packet idEngine exSessAP [] []).2.1.state =
      dtls_con_state.PASS ∧
    dtls_con_state.PASS ≠ dtls_con_state.ACTPASS := by
  decide

/-- C8 amended: a zero-length ingest still runs the full ingest pipeline.
It resolves an undecided role `ACTPASS` to `PASS`, and — like any ingest —
it can still flip the connection kind to `EXISTING` when the engine
reports completion. On a session whose role is already resolved, with
nothing pending and an empty read producing no output: the role and the
emitted-output log are unchanged, the connection kind is unchanged
whenever the engine does not report completion, and if it changes at all
it changes only to `EXISTING` and only because the engine reports
completion. -/
theorem claim_C8_amended_zero_length_ingest (E : Engine) (s : dtls_sess)
    (out : SendLog) (ssl0 : SslState)
    (hssl : s.ssl = some ssl0) :
    (s.state = dtls_con_state.ACTPASS →
      (dtls_sess_put_packet E s out []).2.1.state = dtls_con_state.PASS) ∧
    (s.state ≠ dtls_con_state.ACTPASS →
      (dtls_sess_put_packet E s out []).2.1.state = s.state) ∧
    (s.state ≠ dtls_con_state.ACTPASS → ssl0.wbio = [] →
      (E.sslRead ssl0 0).1.wbio = [] →
      ((dtls_sess_put_packet E s out []).2.2 = out ∧
       ((E.sslRead ssl0 0).1.initFinished = false →
         (dtls_sess_put_packet E s out []).2.1.type = s.type) ∧
       ((dtls_sess_put_packet E s out []).2.1.type = s.type ∨
        ((dtls_sess_put_packet E s out []).2.1.type = dtls_con_type.EXISTING ∧
         (E.sslRead ssl0 0).1.initFinished = true)))) := by
  refine ⟨?_, ?_, ?_⟩
  · intro hap
    rw [put_packet_state_eq]
    simp [hssl, hap]
  · intro hstate
    rw [put_packet_state_eq]
    simp [hssl, hstate]
  · intro hstate hw hrd1
    have hf1 : flush_wbio ssl0 out = (0, ssl0, out) := by
      simp [flush_wbio, hw]
    have hf2 : flush_wbio (E.sslRead ssl0 0).1 out =
        (0, (E.sslRead ssl0 0).1, out) := by
      simp [flush_wbio, hrd1]
    simp only [dtls_sess_put_packet, hssl, if_neg hstate, List.length_nil,
      hf1, List.append_nil, hf2]
    split
    · refine ⟨by trivial, fun _ => by trivial, Or.inl (by trivial)⟩
    · cases hfin0 : (E.sslRead ssl0 0).1.initFinished with
      | true =>
          simp only [hfin0, if_true]
          refine ⟨by trivial, ?_, Or.inr ⟨by trivial, by trivial⟩⟩
          intro hc
          exact absurd hc (by decide)
      | false =>
          simp only [hfin0, if_false]
          exact ⟨by trivial, fun _ => by trivial, Or.inl (by trivial)⟩

/-- Instantiation of the amended C8: a resolved-`ACT` quiescent session
under the no-op engine keeps role, connection kind and output log across a
zero-length ingest. -/
theorem claim_C8_amended_witness :
    (exSessAct.state = dtls_con_state.ACTPASS →
      (dtls_sess_put_packet idEngine exSessAct [] []).2.1.state =
        dtls_con_state.PASS) ∧
    (exSessAct.state ≠ dtls_con_state.ACTPASS →
      (dtls_sess_put_packet idEngine exSessAct [] []).2.1.state =
        exSessAct.state) ∧
    (exSessAct.state ≠ dtls_con_state.ACTPASS → exSsl.wbio = [] →
      (idEngine.sslRead exSsl 0).1.wbio = [] →
      ((dtls_sess_put_packet idEngine exSessAct [] []).2.2 = [] ∧
       ((idEngine.sslRead exSsl 0).1.initFinished = false →
         (dtls_sess_put_packet idEngine exSessAct [] []).2.1.type =
           exSessAct.type) ∧
       ((dtls_sess_put_packet idEngine exSessAct [] []).2.1.type =
          exSessAct.type ∨
        ((dtls_sess_put_packet idEngine exSessAct [] []).2.1.type =
           dtls_con_type.EXISTING ∧
         (idEngine.sslRead exSsl 0).1.initFinished = true)))) :=
  claim_C8_amended_zero_length_ingest idEngine exSessAct [] exSsl rfl

/-- C9 counterexample: with both PEM blobs parsing successfully but a
private key that does not match the certificate, `dtls_build_tlscfg` (the
load step) still succeeds — a Certificate object is created — so the claim
that a key/certificate mismatch fails the load with a parse error and
creates no Certificate is false; the mismatch is only caught when the TLS
context is built. -/
theorem claim_C9_counterexample :
    dtls_build_tlscfg exParse exParse [1] [2] =
      some { cert := 0, pkey := 0
             profile := srtp_profile.AES128_CM_SHA1_80 } ∧
    exCtxOpsBad.check_private_key 0 0 = false ∧
    dtls_build_sslctx exCtxOpsBad (dtls_build_tlscfg exParse exParse [1] [2]) =
      none := by
  decide

/-- C9 amended: a malformed certificate or key blob fails the load
(`dtls_build_tlscfg` returns null, no Certificate created); a private key
that does not match the certificate is not detected at load time — the
Certificate is created — but the subsequent TLS-context construction
(`dtls_ctx_init`, reached via `dtls_build_sslctx`) fails, so no SSL context
and hence no session is created; conversely a successfully built context
implies every check (certificate install, key install, key/certificate
match) passed. -/
theorem claim_C9_amended_parse_and_mismatch
    (pc pk : List Nat → Option Nat) (ops : CtxOps)
    (cd kd : List Nat) (cfg : tlscfg) :
    (pc cd = none → dtls_build_tlscfg pc pk cd kd = none) ∧
    (pk kd = none → dtls_build_tlscfg pc pk cd kd = none) ∧
    (dtls_build_tlscfg pc pk cd kd = some cfg →
      ((ops.check_private_key cfg.cert cfg.pkey = false →
        dtls_ctx_init ops cfg = none) ∧
       (dtls_ctx_init ops cfg = some () →
        ops.use_certificate cfg.cert = true ∧
        ops.use_PrivateKey cfg.pkey = true ∧
        ops.check_private_key cfg.cert cfg.pkey = true))) ∧
    dtls_build_sslctx ops none = none := by
  refine ⟨?_, ?_, ?_, rfl⟩
  · intro h
    simp [dtls_build_tlscfg, h]
  · intro h
    cases hc : pc cd with
    | none => simp [dtls_build_tlscfg, hc]
    | some c => simp [dtls_build_tlscfg, hc, h]
  · intro hcfg
    constructor
    · intro hk
      cases hp : cfg.profile with
      | RESERVED => simp [dtls_ctx_init, hp]
      | AES128_CM_SHA1_80 => simp [dtls_ctx_init, hp, hk]
      | AES128_CM_SHA1_32 => simp [dtls_ctx_init, hp, hk]
    · intro hctx
      cases hp : cfg.profile with
      | RESERVED => simp [dtls_ctx_init, hp] at hctx
      | AES128_CM_SHA1_80 =>
          simp only [dtls_ctx_init, hp] at hctx
          by_cases h1 : ops.use_certificate cfg.cert
          · rw [if_pos h1] at hctx
            by_cases h2 : ops.use_PrivateKey cfg.pkey ∧
                ops.check_private_key cfg.cert cfg.pkey
            · exact ⟨h1, h2.1, h2.2⟩
            · rw [if_neg h2] at hctx
              cases hctx
          · rw [if_neg h1] at hctx
            cases hctx
      | AES128_CM_SHA1_32 =>
          simp only [dtls_ctx_init, hp] at hctx
          by_cases h1 : ops.use_certificate cfg.cert
          · rw [if_pos h1] at hctx
            by_cases h2 : ops.use_PrivateKey cfg.pkey ∧
                ops.check_private_key cfg.cert cfg.pkey
            · exact ⟨h1, h2.1, h2.2⟩
            · rw [if_neg h2] at hctx
              cases hctx
          · rw [if_neg h1] at hctx
            cases hctx

/-- Instantiation of the amended C9 on the concrete oracles with a failing
key/certificate check. -/
theorem claim_C9_amended_witness :
    (exParse [1] = none → dtls_build_tlscfg exParse exParse [1] [2] = none) ∧
    (exParse [2] = none → dtls_build_tlscfg exParse exParse [1] [2] = none) ∧
    (dtls_build_tlscfg exParse exParse [1] [2] =
      some { cert := 0, pkey := 0
             profile := srtp_profile.AES128_CM_SHA1_80 } →
      ((exCtxOpsBad.check_private_key 0 0 = false →
        dtls_ctx_init exCtxOpsBad
          { cert := 0, pkey := 0
            profile := srtp_profile.AES128_CM_SHA1_80 } = none) ∧
       (dtls_ctx_init exCtxOpsBad
          { cert := 0, pkey := 0
            profile := srtp_profile.AES128_CM_SHA1_80 } = some () →
        exCtxOpsBad.use_certificate 0 = true ∧
        exCtxOpsBad.use_PrivateKey 0 = true ∧
        exCtxOpsBad.check_private_key 0 0 = true))) ∧
    dtls_build_sslctx exCtxOpsBad none = none :=
  claim_C9_amended_parse_and_mismatch exParse exParse exCtxOpsBad [1] [2]
    { cert := 0, pkey := 0, profile := srtp_profile.AES128_CM_SHA1_80 }
